import Mathlib

/-!
Shallow embedding of the LangGraph AI Commerce Agent
(`src/tools.py`, `src/graph.py`, `src/schema_validator.py`).

Conventions of the embedding:
* Python strings are Lean `String`s; the character-level operations
  (`str.lower`, substring `in`, regex scans) are carried out on `String.data`
  (a `List Char`).  `str.lower` is modelled as mapping `Char.toLower`
  over the characters (exact for the ASCII texts this program handles).
* Timestamps are integers: seconds elapsed since 2025-09-06T00:00:00Z
  (the day before the earliest seeded order).  The ISO strings of the
  source are converted once, in the seed data below.
* Python floats are modelled as exact rationals (`ℚ`).  The only float
  arithmetic in the source is `total_seconds()/60`, the comparison with 60,
  and `round(x, 1)` used inside message strings; over the integer-second
  inputs of this program these are exact in ℚ.  `round(x, 1)` is modelled
  with `round (x*10)` (which rounds half away from floor rather than
  Python's half-to-even on binary floats; the claims never depend on the
  digits of these embedded message numbers).
* `dict` results become structures / inductives; a key that the source
  omits from a result dict becomes an `Option` field set to `none`.
-/

namespace Commerce

/-- Python `str.lower()` restricted to its ASCII action. -/
def lowerStr (s : String) : String := ⟨s.data.map Char.toLower⟩

/-- Python's substring test `needle in hay` on character lists. -/
def containsSub (n : List Char) : List Char → Bool
  | [] => n.isEmpty
  | c :: t => n.isPrefixOf (c :: t) || containsSub n t

/-- Python `needle in hay` on strings. -/
def strIn (n hay : String) : Bool := containsSub n.data hay.data

/-- Parse a (nonempty) list of decimal digit characters, as Python `int`. -/
def digitsToNat (l : List Char) : Nat :=
  l.foldl (fun n c => n * 10 + (c.toNat - 48)) 0

/-! ## Data model (`src/tools.py` seed data) -/

structure Product where
  id : String
  title : String
  price : Nat
  tags : List String
  sizes : List String
  color : String
deriving DecidableEq, Repr

structure OrderItem where
  id : String
  size : String
deriving DecidableEq, Repr

structure Order where
  order_id : String
  email : String
  /-- seconds since 2025-09-06T00:00:00Z (see header comment) -/
  created_at : Int
  items : List OrderItem
deriving DecidableEq, Repr

/-- `CommerceTools._load_products` fallback seed. -/
def fallbackProducts : List Product :=
  [ ⟨"P1", "Midi Wrap Dress", 119, ["wedding", "midi"], ["S", "M", "L"], "Charcoal"⟩,
    ⟨"P2", "Satin Slip Dress", 99, ["wedding", "midi"], ["XS", "S", "M"], "Blush"⟩,
    ⟨"P3", "Knit Bodycon", 89, ["midi"], ["M", "L"], "Navy"⟩,
    ⟨"P4", "A-Line Day Dress", 75, ["daywear", "midi"], ["S", "M", "L"], "Olive"⟩,
    ⟨"P5", "Sequin Party Dress", 149, ["party"], ["S", "M"], "Black"⟩ ]

/-- `CommerceTools._load_orders` fallback seed.
`created_at` values: "2025-09-07T09:30:00Z" = 120600, "2025-09-06T13:05:00Z" = 47100,
"2025-09-07T11:55:00Z" = 129300 (seconds since 2025-09-06T00:00:00Z). -/
def fallbackOrders : List Order :=
  [ ⟨"A1001", "rehan@example.com", 120600, [⟨"P1", "M"⟩]⟩,
    ⟨"A1002", "alex@example.com", 47100, [⟨"P2", "S"⟩]⟩,
    ⟨"A1003", "mira@example.com", 129300, [⟨"P3", "L"⟩]⟩ ]

/-- `os.getenv("CURRENT_TIME", "2025-09-08T11:05:00Z")` default: "2025-09-08T11:05:00Z" = 212700. -/
def defaultCurrentTime : Int := 212700

/-! ## `CommerceTools.product_search` -/

/-- The body of the `for product in self.products` loop of `product_search`:
`True` exactly when none of the three `continue` guards fires.
(`query_lower` is computed once before the loop in the source; recomputing
it per product is observationally identical since `query` never changes.) -/
def keepProduct (query : String) (price_max : Nat) (tags : List String) (p : Product) : Bool :=
  let query_lower := lowerStr query
  if p.price > price_max then false
  else if !tags.isEmpty && !(tags.any fun tag => p.tags.contains tag) then false
  else if !query.isEmpty &&
      !(strIn query_lower (lowerStr p.title) || p.tags.any fun tag => strIn query_lower (lowerStr tag)) then
    false
  else true

/-- Python `sorted(results, key=lambda x: x['price'])` is a stable ascending
sort; it is modelled by the (stable) insertion sort on the price order, whose
output any stable ascending sort equals. -/
def byPrice : Product → Product → Prop := fun a b => a.price ≤ b.price

instance : DecidableRel byPrice := fun a b => inferInstanceAs (Decidable (a.price ≤ b.price))

instance : IsTotal Product byPrice := ⟨fun a b => Nat.le_total a.price b.price⟩

instance : IsTrans Product byPrice := ⟨fun _ _ _ => Nat.le_trans⟩

/-- `CommerceTools.product_search`: filter loop, then `sorted(results, key=price)[:2]`. -/
def product_search (products : List Product) (query : String) (price_max : Nat)
    (tags : List String) : List Product :=
  let results := products.filter (keepProduct query price_max tags)
  (results.insertionSort byPrice).take 2

/-! ## `CommerceTools.size_recommender` -/

def size_recommender (user_inputs : String) : String :=
  let user_lower := lowerStr user_inputs
  if ["fitted", "tight", "small", "petite"].any (fun w => strIn w user_lower) then
    "I\x27d recommend size M for a more fitted look"
  else if ["loose", "comfortable", "roomy", "large"].any (fun w => strIn w user_lower) then
    "I\x27d recommend size L for a more comfortable fit"
  else if strIn "between m/l" user_lower || strIn "between m and l" user_lower then
    "For M vs L: choose M if you prefer fitted style, L if you want more room and comfort"
  else
    "I\x27d recommend size M as a good middle ground, but L if you prefer looser fits"

/-! ## `CommerceTools.eta` -/

def eta (zip_code : String) : String :=
  let zip_digits := zip_code.data.filter Char.isDigit
  if zip_digits.isEmpty then "3-4 business days"
  else
    -- `int(zip_digits[:6].ljust(6, '0'))`
    let zip6 := zip_digits.take 6
    let zip_int := digitsToNat (zip6 ++ List.replicate (6 - zip6.length) '0')
    if zip_int < 400000 then "3-4 business days"
    else if zip_int < 600000 then "2-3 business days"
    else "4-5 business days"

/-! ## `CommerceTools.order_lookup` / `CommerceTools.order_cancel` -/

/-- `order_lookup`: first stored order matching both id and email, else `None`. -/
def order_lookup (orders : List Order) (order_id email : String) : Option Order :=
  orders.find? (fun o => o.order_id == order_id && o.email == email)

/-- Result dict of `order_cancel`; keys absent from a branch become `none`. -/
structure CancelResult where
  success : Bool
  reason : String
  message : String
  time_diff_minutes : Option ℚ
  alternatives : Option (List String)
deriving DecidableEq, Repr

/-- `round(x, 1)` over exact rationals (see header comment on floats). -/
def round1 (x : ℚ) : ℚ := (round (x * 10) : ℚ) / 10

/-- Decimal rendering `d.t` of a tenths-rounded value, used in the
policy-violation message (`round(time_diff_minutes/60, 1)` hours). -/
def fmtRound1 (x : ℚ) : String :=
  let t : Int := round (x * 10)
  toString (t / 10) ++ "." ++ toString ((t % 10).natAbs)

def order_cancel (orders : List Order) (order_id email : String) (now : Int) : CancelResult :=
  match order_lookup orders order_id email with
  | none =>
      { success := false
        reason := "order_not_found"
        message := "Order not found with provided ID and email"
        time_diff_minutes := none
        alternatives := none }
  | some order =>
      -- `(current_dt - created_at).total_seconds() / 60`
      let time_diff_minutes : ℚ := ((now - order.created_at : Int) : ℚ) / 60
      if time_diff_minutes ≤ 60 then
        { success := true
          reason := "within_policy"
          message := "Order " ++ order_id ++
            " cancelled successfully. Refund will process in 3-5 business days."
          time_diff_minutes := some (round1 time_diff_minutes)
          alternatives := none }
      else
        { success := false
          reason := "policy_violation"
          message := "Order was placed " ++ fmtRound1 (time_diff_minutes / 60) ++
            " hours ago, beyond our 60-minute cancellation window."
          time_diff_minutes := some (round1 time_diff_minutes)
          alternatives := some
            ["Update shipping address", "Convert to store credit", "Connect with customer support"] }

/-! ## `src/graph.py`: the five pipeline nodes

Regex scans are embedded as leftmost-match scans over `List Char`,
reproducing Python `re.search` semantics for the three concrete patterns
the source uses.  `\s`, `\w`, `[A-Z]` are taken in their ASCII meaning
(all texts handled by this program are ASCII in the matched portions). -/

def product_keywords : List String :=
  ["dress", "product", "wedding", "midi", "size", "price", "eta", "under"]

def order_keywords : List String := ["cancel", "order", "refund"]

/-- Body of `router_node` on the last message's content. -/
def classify (text : String) : String :=
  let user_message := lowerStr text
  if product_keywords.any (fun w => strIn w user_message) && !(strIn "cancel" user_message) then
    "product_assist"
  else if order_keywords.any (fun w => strIn w user_message) then "order_help"
  else "other"

/-- `router_node` over the state's message list (`messages[-1]`; empty ⇒ "other"). -/
def router_node (messages : List String) : String :=
  match messages.getLast? with
  | none => "other"
  | some m => classify m

/-- `tool_selector_node`. -/
def tool_selector_node (intent : String) : List String :=
  if intent == "product_assist" then ["product_search", "size_recommender", "eta"]
  else if intent == "order_help" then ["order_lookup", "order_cancel"]
  else []

/-! ### Regex `under.*?(\d+)` (price ceiling extraction) -/

/-- First maximal digit run occurring anywhere in the list
(the `.*?(\d+)` part: minimal gap, then greedy `\d+`). -/
def firstDigitRun : List Char → Option Nat
  | [] => none
  | c :: rest =>
      if c.isDigit then some (digitsToNat (c :: rest.takeWhile Char.isDigit))
      else firstDigitRun rest

/-- Attempt of `under.*?(\d+)` anchored at the head of the list. -/
def tryUnderAt (l : List Char) : Option Nat :=
  if l.take 5 = ['u', 'n', 'd', 'e', 'r'] then firstDigitRun (l.drop 5) else none

/-- `re.search(r'under.*?(\d+)', s)`: leftmost anchored match. -/
def searchUnderNum : List Char → Option Nat
  | [] => none
  | c :: rest =>
      match tryUnderAt (c :: rest) with
      | some n => some n
      | none => searchUnderNum rest

/-! ### Regex `order\s+([A-Z]\d+)` with `re.IGNORECASE` (order id extraction) -/

/-- ASCII `\s`. -/
def isSpaceRe (c : Char) : Bool :=
  c = ' ' || c = '\t' || c = '\n' || c = '\x0d' || c = '\x0b' || c = '\x0c'

/-- Attempt of `order\s+([A-Z]\d+)` (IGNORECASE) anchored at the head;
returns group 1.  `\s+` is greedy and `[A-Z]` cannot match whitespace, so
the letter must follow the maximal whitespace run. -/
def tryOrderIdAt (l : List Char) : Option String :=
  if (l.take 5).map Char.toLower = ['o', 'r', 'd', 'e', 'r'] then
    let a := l.drop 5
    let ws := a.takeWhile isSpaceRe
    if ws.isEmpty then none
    else
      match a.drop ws.length with
      | [] => none
      | c :: rest =>
          if c.isAlpha then
            let ds := rest.takeWhile Char.isDigit
            if ds.isEmpty then none else some ⟨c :: ds⟩
          else none
  else none

/-- `re.search(r'order\s+([A-Z]\d+)', s, re.IGNORECASE)`: leftmost match's group 1. -/
def searchOrderId : List Char → Option String
  | [] => none
  | c :: rest =>
      match tryOrderIdAt (c :: rest) with
      | some r => some r
      | none => searchOrderId rest

def extractOrderId (s : String) : Option String := searchOrderId s.data

/-! ### Regex `[\w\.-]+@[\w\.-]+\.\w+` (email extraction) -/

/-- ASCII `\w`. -/
def isWordChar (c : Char) : Bool := c.isAlphanum || c = '_'

/-- Character class `[\w\.-]`. -/
def isEmailClass (c : Char) : Bool := isWordChar c || c = '.' || c = '-'

/-- Backtracking of `[\w\.-]+\.\w+` inside the maximal class run after `@`:
the engine keeps the run part as long as possible, so it picks the LAST `.`
that is followed by a word character; the part before the `.` must be
nonempty.  Returns (run part before the dot, greedy `\w+` after it). -/
def lastDotSplit : List Char → Option (List Char × List Char)
  | [] => none
  | c :: rest =>
      match lastDotSplit rest with
      | some (a, w) => some (c :: a, w)
      | none =>
          if c = '.' then
            match rest with
            | d :: _ => if isWordChar d then some ([], rest.takeWhile isWordChar) else none
            | [] => none
          else none

/-- Attempt of `[\w\.-]+@[\w\.-]+\.\w+` anchored at the head of the list.
The class does not contain `@`, so the first `+` must consume the maximal
class run and be followed immediately by `@`. -/
def tryEmailAt (l : List Char) : Option String :=
  let r1 := l.takeWhile isEmailClass
  if r1.isEmpty then none
  else
    match l.drop r1.length with
    | '@' :: rest =>
        let r2 := rest.takeWhile isEmailClass
        match lastDotSplit r2 with
        | some (a, w) =>
            if a.isEmpty then none
            else some ⟨r1 ++ '@' :: (a ++ '.' :: w)⟩
        | none => none
    | _ => none

/-- `re.search(r'[\w\.-]+@[\w\.-]+\.\w+', s)`: leftmost match. -/
def searchEmail : List Char → Option String
  | [] => none
  | c :: rest =>
      match tryEmailAt (c :: rest) with
      | some r => some r
      | none => searchEmail rest

def extractEmail (s : String) : Option String := searchEmail s.data

/-! ### Regex `\b\d{6}\b` (zip code in `responder_node`) -/

/-- Scan for a 6-digit token with word boundaries: previous character (if
any) not a word character, exactly six digits, next character (if any) not
a word character.  `prev` is the character preceding the current position. -/
def scanZip6 (prev : Option Char) : List Char → Option (List Char)
  | [] => none
  | c :: rest =>
      let ds := (c :: rest).take 6
      if (match prev with | none => true | some p => !isWordChar p) &&
          ds.length == 6 && ds.all Char.isDigit &&
          (match (c :: rest).drop 6 with | [] => true | d :: _ => !isWordChar d) then
        some ds
      else scanZip6 (some c) rest

def extractZip6 (s : String) : Option String :=
  (scanZip6 none s.data).map fun l => ⟨l⟩

/-! ### `execute_tools_node` -/

inductive Evidence where
  | product (p : Product)
  | order (o : Order)
deriving DecidableEq, Repr

/-- `price_max` extraction of `execute_tools_node`:
`re.search(r'under.*?(\d+)', message_lower)`, default 1000. -/
def extract_price_max (message_lower : String) : Nat :=
  match searchUnderNum message_lower.data with
  | some n => n
  | none => 1000

def execute_tools_node (text : String) (tools_called : List String) : List Evidence :=
  let productEv :=
    if tools_called.contains "product_search" then
      let message_lower := lowerStr text
      let price_max := extract_price_max message_lower
      let qt : String × List String :=
        if ["wedding", "midi"].any (fun w => strIn w message_lower) then
          ("midi", ["wedding", "midi"])
        else ("", [])
      (product_search fallbackProducts qt.1 price_max qt.2).map Evidence.product
    else []
  let orderEv :=
    if tools_called.contains "order_lookup" then
      match extractOrderId text, extractEmail text with
      | some order_id, some email =>
          match order_lookup fallbackOrders order_id email with
          | some o => [Evidence.order o]
          | none => []
      | _, _ => []
    else []
  productEv ++ orderEv

/-! ### `policy_guard_node` -/

/-- The two shapes of `policy_decision` dict the guard can produce.
`cancel`'s `alternatives` field is `none` when the key is absent
(the `cancel_allowed=True` branch) and `some _` when present. -/
inductive PolicyDecision where
  | cancel (cancel_allowed : Bool) (reason message : String) (alternatives : Option (List String))
  | refusal (reason : String)
deriving DecidableEq, Repr

def policy_guard_node (intent : String) (text : String) : Option PolicyDecision :=
  if intent == "order_help" then
    match extractOrderId text, extractEmail text with
    | some order_id, some email =>
        let cancel_result := order_cancel fallbackOrders order_id email defaultCurrentTime
        if cancel_result.success then
          some (.cancel true "within_policy" cancel_result.message none)
        else
          some (.cancel false cancel_result.reason cancel_result.message
            (some (cancel_result.alternatives.getD [])))
    | _, _ => none
  else if intent == "other" then
    let user_message := lowerStr text
    if strIn "discount code" user_message &&
        ["doesn\x27t exist", "non-existent", "fake"].any (fun w => strIn w user_message) then
      some (.refusal "invalid_discount_request")
    else none
  else none

/-! ### JSON values and the trace (`responder_node`, `schema_validator.py`) -/

inductive Json where
  | null
  | bool (b : Bool)
  | num (n : Int)
  | str (s : String)
  | arr (xs : List Json)
  | obj (kvs : List (String × Json))

/-- Trace-evidence projection of `responder_node`:
`{"id": ..., **{k: v for k, v in data.items() if k in [...]}}`. -/
def evidenceJson : Evidence → Json
  | .product p =>
      .obj [("id", .str p.id), ("title", .str p.title), ("price", .num p.price),
            ("sizes", .arr (p.sizes.map .str)), ("color", .str p.color)]
  | .order o =>
      .obj [("id", .str o.order_id), ("order_id", .str o.order_id), ("email", .str o.email)]

/-- JSON rendering of a `policy_decision` value. -/
def policyDecisionJson : Option PolicyDecision → Json
  | none => .null
  | some (.cancel allowed reason message alts) =>
      .obj ([("cancel_allowed", .bool allowed), ("reason", .str reason),
             ("message", .str message)] ++
        match alts with
        | some l => [("alternatives", .arr (l.map .str))]
        | none => [])
  | some (.refusal reason) =>
      .obj [("refuse", .bool true), ("reason", .str reason)]

structure Trace where
  intent : String
  tools_called : List String
  evidence : List Json
  policy_decision : Option PolicyDecision
  final_message : String

def traceJson (t : Trace) : Json :=
  .obj [("intent", .str t.intent),
        ("tools_called", .arr (t.tools_called.map .str)),
        ("evidence", .arr t.evidence),
        ("policy_decision", policyDecisionJson t.policy_decision),
        ("final_message", .str t.final_message)]

/-! ### `responder_node` -/

def noProductsMsg : String :=
  "I couldn\x27t find any products matching your criteria. Please try adjusting your price range or preferences."

def needIdsMsg : String :=
  "I need both your order ID and email address to help you with order-related requests."

def refusalMsg : String :=
  "I can\x27t provide non-existent discount codes, but I can suggest these legitimate offers:\n" ++
  "• Sign up for our newsletter for 10% off your first order\n" ++
  "• Follow us on social media for exclusive deals\n" ++
  "• Check our current promotions page for active discounts"

def genericMsg : String :=
  "I\x27m here to help with product searches and order management. How can I assist you today?"

/-- The `• {title} (${price}, {color}) - Available in {", ".join(sizes)}` line. -/
def productLine (p : Product) : String :=
  "• " ++ p.title ++ " ($" ++ toString p.price ++ ", " ++ p.color ++ ") - Available in " ++
    String.intercalate ", " p.sizes ++ "\n"

/-- Numbered alternatives block: `f"{i}. {alt}\n"` for i = 1, 2, ... -/
def altLines (alts : List String) (i : Nat) : String :=
  match alts with
  | [] => ""
  | a :: rest => toString i ++ ". " ++ a ++ "\n" ++ altLines rest (i + 1)

/-- `responder_node`: computes the final message and the trace.  The source
builds the trace dict with `final_message: ""` and then assigns
`trace["final_message"] = final_message`; the net trace is built here
directly.  The `order_help` branch with a decision lacking both
`cancel_allowed` and `message` keys (a refusal decision) is unreachable in
the pipeline — in Python it would raise `KeyError`; it is mapped to `""`. -/
def responder_node (intent : String) (tools_called : List String) (evidence : List Evidence)
    (policy_decision : Option PolicyDecision) (text : String) : String × Trace :=
  let final_message :=
    if intent == "product_assist" then
      let products := evidence.filterMap fun e =>
        match e with
        | .product p => some p
        | _ => none
      if !products.isEmpty then
        let base := "I found " ++ toString products.length ++ " dress" ++
          (if products.length > 1 then "es" else "") ++ " for you:\n\n" ++
          String.join (products.map productLine)
        let withSize :=
          if strIn "between m/l" (lowerStr text) || strIn "m/l" (lowerStr text) then
            base ++ "\n" ++ size_recommender text ++ ".\n"
          else base
        match extractZip6 text with
        | some zip => withSize ++ "\nDelivery to " ++ zip ++ ": " ++ eta zip ++ "."
        | none => withSize
      else noProductsMsg
    else if intent == "order_help" then
      match policy_decision with
      | some (.cancel true _ message _) => message
      | some (.cancel false _ message alts) =>
          message ++ "\n\nI can help you with these alternatives:\n" ++
            altLines (alts.getD []) 1 ++ "\nWhich option would you prefer?"
      | some (.refusal _) => ""
      | none => needIdsMsg
    else if intent == "other" then
      match policy_decision with
      | some (.refusal _) => refusalMsg
      | _ => genericMsg
    else ""
  (final_message,
   { intent := intent
     tools_called := tools_called
     evidence := evidence.map evidenceJson
     policy_decision := policy_decision
     final_message := final_message })

/-! ### `run_agent`: the compiled linear graph -/

/-- `run_agent`: router → tool_selector → execute_tools → policy_guard →
responder over the single-message state; returns `{trace, final_message}`. -/
def run_agent (user_input : String) : Trace × String :=
  let intent := router_node [user_input]
  let tools_called := tool_selector_node intent
  let evidence := execute_tools_node user_input tools_called
  let policy_decision := policy_guard_node intent user_input
  let (final_message, trace) := responder_node intent tools_called evidence policy_decision user_input
  (trace, final_message)

/-! ### `schema_validator.py` -/

def lookupKey (kvs : List (String × Json)) (k : String) : Option Json :=
  (kvs.find? (fun kv => kv.1 == k)).map Prod.snd

def isStrJson : Json → Bool
  | .str _ => true
  | _ => false

def isObjJson : Json → Bool
  | .obj _ => true
  | _ => false

/-- The `policy_decision` member of `TRACE_SCHEMA`: `oneOf [null, object]`
where the object requires a boolean `cancel_allowed` and constrains
`reason` (string) and `alternatives` (array of strings) when present. -/
def policySchemaOk (v : Json) : Bool :=
  match v with
  | .null => true
  | .obj kvs =>
      (match lookupKey kvs "cancel_allowed" with
       | some (.bool _) => true
       | _ => false) &&
      (match lookupKey kvs "reason" with
       | some x => isStrJson x
       | none => true) &&
      (match lookupKey kvs "alternatives" with
       | some (.arr xs) => xs.all isStrJson
       | some _ => false
       | none => true)
  | _ => false

/-- `TRACE_SCHEMA` as a checker: required keys `intent` (enum string),
`tools_called` (array of strings), `evidence` (array of objects),
`policy_decision` (see `policySchemaOk`), `final_message` (string). -/
def checkTraceSchema (j : Json) : Bool :=
  match j with
  | .obj kvs =>
      (match lookupKey kvs "intent" with
       | some (.str s) => ["product_assist", "order_help", "other"].contains s
       | _ => false) &&
      (match lookupKey kvs "tools_called" with
       | some (.arr xs) => xs.all isStrJson
       | _ => false) &&
      (match lookupKey kvs "evidence" with
       | some (.arr xs) => xs.all isObjJson
       | _ => false) &&
      (match lookupKey kvs "policy_decision" with
       | some v => policySchemaOk v
       | none => false) &&
      (match lookupKey kvs "final_message" with
       | some (.str _) => true
       | _ => false)
  | _ => false

/-- `validate_trace`: returns `True` on a valid trace, raises
(`Except.error`) on a schema violation. -/
def validate_trace (j : Json) : Except String Bool :=
  if checkTraceSchema j then .ok true else .error "schema violation"

/-! ## Spec-side definitions

The definitions below are worded from the specification's sentences (not
from the source) and are compared with the source-side functions above in
the theorems. -/

/-- Spec wording: the text contains the keyword as a case-insensitive substring. -/
def MentionsKw (k t : String) : Prop := k.data <:+: (lowerStr t).data

instance (k t : String) : Decidable (MentionsKw k t) :=
  inferInstanceAs (Decidable (k.data <:+: (lowerStr t).data))

/-- Spec wording for `product_search` filtering: price at most the ceiling;
when the tag list is non-empty, at least one shared tag; when the query is
non-empty, the query is a case-insensitive substring of the title or of
some tag. -/
def MatchesSearch (query : String) (price_max : Nat) (tags : List String) (p : Product) : Prop :=
  p.price ≤ price_max ∧
  (tags ≠ [] → ∃ tg ∈ tags, tg ∈ p.tags) ∧
  (query ≠ "" →
    ((lowerStr query).data <:+: (lowerStr p.title).data ∨
      ∃ tg ∈ p.tags, (lowerStr query).data <:+: (lowerStr tg).data))

instance (query : String) (price_max : Nat) (tags : List String) (p : Product) :
    Decidable (MatchesSearch query price_max tags p) := by
  unfold MatchesSearch
  infer_instance

/-- Spec wording: minutes elapsed from the order's creation to `now`
(timestamps in seconds). -/
def minutesSince (created_at now : Int) : ℚ := ((now - created_at : Int) : ℚ) / 60

/-- Spec wording for the price-ceiling default: no occurrence of "under"
is followed (anywhere later in the text) by a digit. -/
def NoUnderNumber (l : List Char) : Prop :=
  ∀ l₁ l₂, l = l₁ ++ ('u' :: 'n' :: 'd' :: 'e' :: 'r' :: l₂) → ∀ c ∈ l₂, ¬(c.isDigit = true)

/-- The digit characters of the input, in order (spec wording for `eta`). -/
def zipDigits (s : String) : List Char := s.data.filter Char.isDigit

/-- Spec wording for `eta`'s selector: the integer value of the first six
digits, right-padded with zeros when fewer than six (via `Nat.ofDigits`,
little-endian, hence the `reverse`). -/
def zipValueSpec (s : String) : Nat :=
  let ds := (zipDigits s).take 6
  Nat.ofDigits 10 ((ds.map (fun c : Char => c.toNat - 48) ++
    List.replicate (6 - ds.length) 0).reverse)

/-- Whether a policy decision is the discount refusal. -/
def isRefusal : Option PolicyDecision → Bool
  | some (.refusal _) => true
  | _ => false

/-- Spec wording of the discount guardrail trigger: the text contains
"discount code" together with one of the three bad-faith phrases
(case-insensitively). -/
def DiscountTrigger (t : String) : Prop :=
  MentionsKw "discount code" t ∧
    (MentionsKw "doesn\x27t exist" t ∨ MentionsKw "non-existent" t ∨ MentionsKw "fake" t)

instance (t : String) : Decidable (DiscountTrigger t) := by
  unfold DiscountTrigger
  infer_instance

/-- Every product evidence item has price at most `bound` (order items are
unconstrained). -/
def EvidencePriceLe (bound : Nat) : Evidence → Prop
  | .product p => p.price ≤ bound
  | .order _ => True

instance (bound : Nat) (e : Evidence) : Decidable (EvidencePriceLe bound e) :=
  match e with
  | .product p => inferInstanceAs (Decidable (p.price ≤ bound))
  | .order _ => inferInstanceAs (Decidable True)

/-- The fixed alternatives list of the cancellation policy. -/
def fixedAlternatives : List String :=
  ["Update shipping address", "Convert to store credit", "Connect with customer support"]

/-- Scenario A text (claims C7). -/
def scenarioA : String := "Wedding guest, midi, under $120 — I\x27m between M/L. ETA to 560001?"

/-- Scenario C text (claim C3's counterexample). -/
def scenarioC : String := "Can you give me a discount code that doesn\x27t exist?"

end Commerce

namespace Commerce

/-! ## Bridge lemmas (shared) -/

theorem containsSub_iff (n h : List Char) : containsSub n h = true ↔ n <:+: h := by
  induction h with
  | nil => simp [containsSub, List.isEmpty_iff]
  | cons c t ih => simp [containsSub, ih, List.infix_cons_iff]

theorem strIn_iff (n h : String) : strIn n h = true ↔ n.data <:+: h.data :=
  containsSub_iff n.data h.data

theorem order_lookup_eq_none_iff (orders : List Order) (oid em : String) :
    order_lookup orders oid em = none ↔ ∀ o ∈ orders, ¬(o.order_id = oid ∧ o.email = em) := by
  simp [order_lookup, List.find?_eq_none]

theorem foldl_digits_aux (l : List Char) (a : Nat) :
    l.foldl (fun n c => n * 10 + (c.toNat - 48)) a
      = a * 10 ^ l.length + Nat.ofDigits 10 ((l.map fun c => c.toNat - 48).reverse) := by
  induction l generalizing a with
  | nil => simp
  | cons c t ih =>
      simp only [List.foldl_cons, ih, List.length_cons, List.map_cons, List.reverse_cons,
        Nat.ofDigits_append, List.length_reverse, List.length_map, Nat.ofDigits_singleton]
      ring

theorem digitsToNat_eq_ofDigits (l : List Char) :
    digitsToNat l = Nat.ofDigits 10 ((l.map fun c => c.toNat - 48).reverse) := by
  simpa using foldl_digits_aux l 0

theorem all_isStr_map (l : List String) : (l.map Json.str).all isStrJson = true := by
  induction l with
  | nil => rfl
  | cons a t ih => simp [isStrJson, ih]

theorem all_isObj_map (ev : List Evidence) : (ev.map evidenceJson).all isObjJson = true := by
  induction ev with
  | nil => rfl
  | cons e t ih => cases e <;> simp [evidenceJson, isObjJson, ih]

theorem classify_cases (t : String) :
    classify t = "product_assist" ∨ classify t = "order_help" ∨ classify t = "other" := by
  simp only [classify]
  split
  · exact .inl rfl
  · split
    · exact .inr (.inl rfl)
    · exact .inr (.inr rfl)

/-! ## Claims -/

/-- C2: for every input message, the trace's `final_message` field equals the
returned reply string exactly, on every intent branch (the responder writes
the one computed message into both outputs). -/
theorem run_agent_trace_final_message_eq_reply (t : String) :
    (run_agent t).1.final_message = (run_agent t).2 := rfl

/-- C10: for every input string, `eta` terminates and returns one of the three
fixed strings, chosen by the integer value of the first six digits found in
the input (right-padded with zeros when fewer than six), with
"3-4 business days" as the default when the input contains no digit. -/
theorem eta_spec (s : String) :
    (eta s = "3-4 business days" ∨ eta s = "2-3 business days" ∨ eta s = "4-5 business days")
    ∧ (zipDigits s = [] → eta s = "3-4 business days")
    ∧ (zipDigits s ≠ [] →
        eta s = (if zipValueSpec s < 400000 then "3-4 business days"
                 else if zipValueSpec s < 600000 then "2-3 business days"
                 else "4-5 business days")) := by
  have hempty : (s.data.filter Char.isDigit).isEmpty = true ↔ zipDigits s = [] := by
    simp [List.isEmpty_iff, zipDigits]
  have hval : digitsToNat ((s.data.filter Char.isDigit).take 6 ++
      List.replicate (6 - ((s.data.filter Char.isDigit).take 6).length) '0') = zipValueSpec s := by
    rw [digitsToNat_eq_ofDigits]
    simp only [zipValueSpec, zipDigits, List.map_append, List.map_replicate]
    rfl
  refine ⟨?_, ?_, ?_⟩
  · simp only [eta]
    split
    · exact .inl rfl
    · split
      · exact .inl rfl
      · split
        · exact .inr (.inl rfl)
        · exact .inr (.inr rfl)
  · intro h
    simp only [eta]
    rw [if_pos (hempty.mpr h)]
  · intro h
    simp only [eta]
    rw [if_neg (fun hc => h (hempty.mp hc)), hval]

/-- A boolean agreeing with a decidable proposition is its `decide`. -/
theorem bool_eq_decide {b : Bool} {P : Prop} [Decidable P] (h : b = true ↔ P) :
    b = decide P := by
  by_cases hP : P
  · simp [h.mpr hP, hP]
  · have hb : b = false := by
      cases hb : b
      · rfl
      · exact absurd (h.mp hb) hP
    simp [hb, hP]

/-- C4: for every text, `classify` returns `product_assist` iff the text
(case-insensitively) contains some product keyword and does not contain
"cancel"; otherwise `order_help` iff it contains some order keyword;
otherwise `other`.  Texts containing "cancel" together with a product
keyword classify as `order_help`; the empty text classifies as `other`;
`classify` is total (never fails). -/
theorem classify_spec (t : String) :
    (classify t = "product_assist" ↔
      ((∃ k ∈ product_keywords, MentionsKw k t) ∧ ¬MentionsKw "cancel" t))
    ∧ (¬((∃ k ∈ product_keywords, MentionsKw k t) ∧ ¬MentionsKw "cancel" t) →
        (classify t = "order_help" ↔ ∃ k ∈ order_keywords, MentionsKw k t))
    ∧ (¬((∃ k ∈ product_keywords, MentionsKw k t) ∧ ¬MentionsKw "cancel" t) →
        ¬(∃ k ∈ order_keywords, MentionsKw k t) → classify t = "other")
    ∧ (MentionsKw "cancel" t → (∃ k ∈ product_keywords, MentionsKw k t) →
        classify t = "order_help")
    ∧ classify "" = "other" := by
  have hp : (product_keywords.any fun w => strIn w (lowerStr t)) = true ↔
      ∃ k ∈ product_keywords, MentionsKw k t := by
    simp [List.any_eq_true, strIn_iff, MentionsKw]
  have ho : (order_keywords.any fun w => strIn w (lowerStr t)) = true ↔
      ∃ k ∈ order_keywords, MentionsKw k t := by
    simp [List.any_eq_true, strIn_iff, MentionsKw]
  have hc : strIn "cancel" (lowerStr t) = true ↔ MentionsKw "cancel" t := strIn_iff _ _
  have hCO : MentionsKw "cancel" t → ∃ k ∈ order_keywords, MentionsKw k t :=
    fun h => ⟨"cancel", by decide, h⟩
  refine ⟨?_, ?_, ?_, ?_, by decide⟩ <;>
    (by_cases hP : ∃ k ∈ product_keywords, MentionsKw k t <;>
      by_cases hC : MentionsKw "cancel" t <;>
        by_cases hO : ∃ k ∈ order_keywords, MentionsKw k t <;>
          first
            | exact absurd (hCO hC) hO
            | simp [classify, bool_eq_decide hp, bool_eq_decide hc, bool_eq_decide ho,
                hP, hC, hO])

/-- C1: for every order id, email and reference time: a pair matching no
stored order yields the blocked `order_not_found` decision with no
alternatives; a matching order with at most 60 elapsed minutes (inclusive)
yields the allowed `within_policy` decision; a matching order beyond 60
minutes yields the blocked `policy_violation` decision with exactly the
fixed ordered alternatives list. -/
theorem order_cancel_policy_spec (order_id email : String) (now : Int) :
    ((∀ o ∈ fallbackOrders, ¬(o.order_id = order_id ∧ o.email = email)) →
      order_cancel fallbackOrders order_id email now =
        { success := false, reason := "order_not_found",
          message := "Order not found with provided ID and email",
          time_diff_minutes := none, alternatives := none })
    ∧ (∀ o ∈ fallbackOrders, o.order_id = order_id → o.email = email →
        ((minutesSince o.created_at now ≤ 60 →
            (order_cancel fallbackOrders order_id email now).success = true ∧
            (order_cancel fallbackOrders order_id email now).reason = "within_policy" ∧
            (order_cancel fallbackOrders order_id email now).alternatives = none)
          ∧ (60 < minutesSince o.created_at now →
            (order_cancel fallbackOrders order_id email now).success = false ∧
            (order_cancel fallbackOrders order_id email now).reason = "policy_violation" ∧
            (order_cancel fallbackOrders order_id email now).alternatives =
              some fixedAlternatives))) := by
  constructor
  · intro h
    have hl : order_lookup fallbackOrders order_id email = none :=
      (order_lookup_eq_none_iff _ _ _).mpr h
    simp [order_cancel, hl]
  · intro o ho hid hem
    subst hid
    subst hem
    have hl : order_lookup fallbackOrders o.order_id o.email = some o := by
      simp only [fallbackOrders, List.mem_cons, List.not_mem_nil, or_false] at ho
      rcases ho with h | h | h <;> subst h <;> rfl
    constructor
    · intro hle
      simp only [minutesSince] at hle
      simp only [order_cancel, hl]
      rw [if_pos hle]
      exact ⟨rfl, rfl, rfl⟩
    · intro hgt
      simp only [minutesSince] at hgt
      simp only [order_cancel, hl]
      rw [if_neg (not_le.mpr hgt)]
      exact ⟨rfl, rfl, rfl⟩

/-- Witness for C1: order A1003 (created 129300 s) cancelled at exactly 60
minutes is allowed; at the default reference time (1390 minutes) it is
blocked with the fixed alternatives; an unknown pair is `order_not_found`. -/
theorem order_cancel_policy_spec_witness :
    (order_cancel fallbackOrders "A1003" "mira@example.com" 132900).success = true ∧
    (order_cancel fallbackOrders "A1003" "mira@example.com" defaultCurrentTime).reason =
      "policy_violation" ∧
    (order_cancel fallbackOrders "A1003" "mira@example.com" defaultCurrentTime).alternatives =
      some fixedAlternatives ∧
    (order_cancel fallbackOrders "A9999" "mira@example.com" 0).reason = "order_not_found" := by
  have hmem : (⟨"A1003", "mira@example.com", 129300, [⟨"P3", "L"⟩]⟩ : Order) ∈ fallbackOrders := by
    decide
  have h60 := (order_cancel_policy_spec "A1003" "mira@example.com" 132900).2
    ⟨"A1003", "mira@example.com", 129300, [⟨"P3", "L"⟩]⟩ hmem rfl rfl
  have hblock := (order_cancel_policy_spec "A1003" "mira@example.com" defaultCurrentTime).2
    ⟨"A1003", "mira@example.com", 129300, [⟨"P3", "L"⟩]⟩ hmem rfl rfl
  have hnf := (order_cancel_policy_spec "A9999" "mira@example.com" 0).1 (by decide)
  refine ⟨(h60.1 ?_).1, (hblock.2 ?_).2.1, (hblock.2 ?_).2.2, by rw [hnf]⟩
  · norm_num [minutesSince]
  · norm_num [minutesSince, defaultCurrentTime]
  · norm_num [minutesSince, defaultCurrentTime]

/-- C6: a correct order id paired with a wrong email is indistinguishable,
through both `order_lookup` and `order_cancel`, from an id that exists for
no order at all: both lookups miss and both cancellations return the same
`order_not_found` outcome with the same message. -/
theorem order_lookup_no_leak (order_id email oid2 email2 : String) (now : Int)
    (_hex : ∃ o ∈ fallbackOrders, o.order_id = order_id)
    (hwrong : ∀ o ∈ fallbackOrders, o.order_id = order_id → o.email ≠ email)
    (hnone : ∀ o ∈ fallbackOrders, o.order_id ≠ oid2) :
    order_lookup fallbackOrders order_id email = order_lookup fallbackOrders oid2 email2
    ∧ order_lookup fallbackOrders order_id email = none
    ∧ order_cancel fallbackOrders order_id email now =
        order_cancel fallbackOrders oid2 email2 now
    ∧ (order_cancel fallbackOrders order_id email now).message =
        "Order not found with provided ID and email" := by
  have h1 : order_lookup fallbackOrders order_id email = none :=
    (order_lookup_eq_none_iff _ _ _).mpr (fun o ho h => hwrong o ho h.1 h.2)
  have h2 : order_lookup fallbackOrders oid2 email2 = none :=
    (order_lookup_eq_none_iff _ _ _).mpr (fun o ho h => hnone o ho h.1)
  refine ⟨h1.trans h2.symm, h1, ?_, ?_⟩
  · simp [order_cancel, h1, h2]
  · simp [order_cancel, h1]

/-- Witness for C6: id "A1001" exists but not with email
"mallory@example.com"; id "A9999" exists for no order; the outcomes agree. -/
theorem order_lookup_no_leak_witness :
    order_cancel fallbackOrders "A1001" "mallory@example.com" defaultCurrentTime =
      order_cancel fallbackOrders "A9999" "rehan@example.com" defaultCurrentTime ∧
    order_lookup fallbackOrders "A1001" "mallory@example.com" = none := by
  have h := order_lookup_no_leak "A1001" "mallory@example.com" "A9999" "rehan@example.com"
    defaultCurrentTime (by decide) (by decide) (by decide)
  exact ⟨h.2.2.1, h.2.1⟩

/-- `keepProduct` agrees with the spec-worded filtering predicate. -/
theorem keepProduct_iff (q : String) (pm : Nat) (tags : List String) (p : Product) :
    keepProduct q pm tags p = true ↔ MatchesSearch q pm tags p := by
  have hcont : ∀ (l : List String) (a : String), l.contains a = true ↔ a ∈ l := by
    intro l a
    simp [List.contains_iff_exists_mem_beq, eq_comm]
  simp only [keepProduct, MatchesSearch]
  split_ifs with h1 h2 h3
  · refine iff_of_false (by simp) fun hM => absurd hM.1 (not_le.mpr h1)
  · refine iff_of_false (by simp) fun hM => ?_
    rw [Bool.and_eq_true] at h2
    obtain ⟨h2a, h2b⟩ := h2
    have htags : tags ≠ [] := by
      intro he
      subst he
      simp at h2a
    obtain ⟨tg, htg, htg2⟩ := hM.2.1 htags
    have hany : tags.any (fun tg => p.tags.contains tg) = true :=
      List.any_eq_true.mpr ⟨tg, htg, (hcont _ _).mpr htg2⟩
    rw [hany] at h2b
    simp at h2b
  · refine iff_of_false (by simp) fun hM => ?_
    rw [Bool.and_eq_true] at h3
    obtain ⟨h3a, h3b⟩ := h3
    have hq : q ≠ "" := by
      intro he
      subst he
      exact absurd h3a (by decide)
    rcases hM.2.2 hq with hti | ⟨tg, htg, htg2⟩
    · have : strIn (lowerStr q) (lowerStr p.title) = true := (strIn_iff _ _).mpr hti
      rw [this] at h3b
      simp at h3b
    · have : (p.tags.any fun tag => strIn (lowerStr q) (lowerStr tag)) = true :=
        List.any_eq_true.mpr ⟨tg, htg, (strIn_iff _ _).mpr htg2⟩
      simp [this] at h3b
  · refine iff_of_true rfl ⟨not_lt.mp h1, ?_, ?_⟩
    · intro htags
      have h2a : (!tags.isEmpty) = true := by
        cases he : tags
        · exact absurd he htags
        · simp [he]
      have hany : (tags.any fun tg => p.tags.contains tg) = true := by
        by_contra hx
        exact h2 (by simp_all)
      obtain ⟨tg, htg, htg2⟩ := List.any_eq_true.mp hany
      exact ⟨tg, htg, (hcont _ _).mp htg2⟩
    · intro hq
      have h3a : (!q.isEmpty) = true := by
        cases hb : q.isEmpty
        · rfl
        · exact absurd ((String.isEmpty_iff q).mp hb) hq
      have hor : (strIn (lowerStr q) (lowerStr p.title) ||
          p.tags.any fun tag => strIn (lowerStr q) (lowerStr tag)) = true := by
        by_contra hx
        exact h3 (by simp_all)
      rcases Bool.or_eq_true .. |>.mp hor with h | h
      · exact .inl ((strIn_iff _ _).mp h)
      · obtain ⟨tg, htg, htg2⟩ := List.any_eq_true.mp h
        exact .inr ⟨tg, htg, (strIn_iff _ _).mp htg2⟩

/-- C5: `product_search` keeps exactly the products passing the spec filter
(price at most the ceiling, a shared tag when tags are given, a
case-insensitive query match on title or a tag when a query is given),
sorted ascending by price and truncated to at most 2 results. -/
theorem product_search_spec (query : String) (price_max : Nat) (tags : List String) :
    (∀ p ∈ product_search fallbackProducts query price_max tags,
      MatchesSearch query price_max tags p)
    ∧ List.Pairwise (fun a b : Product => a.price ≤ b.price)
        (product_search fallbackProducts query price_max tags)
    ∧ (product_search fallbackProducts query price_max tags).length ≤ 2
    ∧ product_search fallbackProducts query price_max tags =
        ((fallbackProducts.filter fun p =>
            decide (MatchesSearch query price_max tags p)).insertionSort byPrice).take 2 := by
  refine ⟨?_, ?_, ?_, ?_⟩
  · intro p hp
    have hp2 : p ∈ fallbackProducts.filter (keepProduct query price_max tags) :=
      (List.perm_insertionSort byPrice _).mem_iff.mp (List.mem_of_mem_take hp)
    exact (keepProduct_iff query price_max tags p).mp (List.mem_filter.mp hp2).2
  · have hs : List.Sorted byPrice
        ((fallbackProducts.filter (keepProduct query price_max tags)).insertionSort byPrice) :=
      List.sorted_insertionSort byPrice _
    exact hs.sublist (List.take_sublist 2 _)
  · simp only [product_search]
    exact List.length_take_le 2 _
  · simp only [product_search]
    congr 2
    exact List.filter_congr fun p _ => bool_eq_decide (keepProduct_iff query price_max tags p)

/-- A list without digits has no digit run. -/
theorem firstDigitRun_eq_none (l : List Char) (h : ∀ c ∈ l, ¬(c.isDigit = true)) :
    firstDigitRun l = none := by
  induction l with
  | nil => rfl
  | cons c t ih =>
      simp only [firstDigitRun]
      rw [if_neg (h c (by simp))]
      exact ih fun d hd => h d (by simp [hd])

/-- The `under.*?(\d+)` scan misses on texts where no occurrence of
"under" is followed by a digit. -/
theorem searchUnderNum_eq_none (l : List Char) (h : NoUnderNumber l) :
    searchUnderNum l = none := by
  induction l with
  | nil => rfl
  | cons c t ih =>
      have hdecomp : tryUnderAt (c :: t) = none := by
        simp only [tryUnderAt]
        split
        case isTrue htake =>
          apply firstDigitRun_eq_none
          have heq : c :: t = [] ++ ('u' :: 'n' :: 'd' :: 'e' :: 'r' :: (c :: t).drop 5) := by
            conv_lhs => rw [← List.take_append_drop 5 (c :: t)]
            rw [htake]
            rfl
          exact h [] ((c :: t).drop 5) heq
        case isFalse _ => rfl
      have hrest : NoUnderNumber t := by
        intro l₁ l₂ heq d hd
        exact h (c :: l₁) l₂ (by rw [heq]; rfl) d hd
      simp only [searchUnderNum, hdecomp]
      exact ih hrest

/-- C7: the evidence collector's price ceiling comes from the
`under ... <integer>` pattern on the lowercased text, defaulting to 1000
when no occurrence of "under" is followed by a digit; on the Scenario A
text the extracted ceiling is 120 and every product evidence item the
pipeline gathers for it is priced at most 120. -/
theorem price_ceiling_spec :
    (∀ s : String, NoUnderNumber (lowerStr s).data → extract_price_max (lowerStr s) = 1000)
    ∧ extract_price_max (lowerStr scenarioA) = 120
    ∧ ∀ e ∈ execute_tools_node scenarioA (tool_selector_node (classify scenarioA)),
        EvidencePriceLe 120 e := by
  refine ⟨?_, by decide, by decide⟩
  intro s hnm
  simp only [extract_price_max, searchUnderNum_eq_none _ hnm]

/-- Witness for C7: a text with no "under" keeps the default ceiling 1000. -/
theorem price_ceiling_spec_witness : extract_price_max (lowerStr "abc") = 1000 := by
  apply price_ceiling_spec.1
  intro l₁ l₂ heq c hc
  have hlen := congrArg List.length heq
  have h3 : (lowerStr "abc").data.length = 3 := rfl
  simp only [List.length_append, List.length_cons, h3] at hlen
  omega

/-- C8: for an `other`-intent text matching the discount-code guard pattern,
the guard stage sets the refusal decision (purely from the text, no store
call) and the reply is the fixed refusal message with the three fixed
legitimate-offer suggestions; for other `other`-intent texts the decision
stays null and the reply is the fixed generic helper message. -/
theorem discount_guard_spec (t : String) (hintent : classify t = "other") :
    (DiscountTrigger t →
      (run_agent t).1.policy_decision = some (.refusal "invalid_discount_request") ∧
      (run_agent t).2 = refusalMsg)
    ∧ (¬DiscountTrigger t →
      (run_agent t).1.policy_decision = none ∧ (run_agent t).2 = genericMsg) := by
  have hb : (strIn "discount code" (lowerStr t) &&
      ["doesn\x27t exist", "non-existent", "fake"].any fun w => strIn w (lowerStr t)) = true ↔
      DiscountTrigger t := by
    simp [Bool.and_eq_true, List.any_eq_true, strIn_iff, DiscountTrigger, MentionsKw]
  have hrt : router_node [t] = "other" := hintent
  constructor
  · intro hdisc
    have hguard : policy_guard_node "other" t = some (.refusal "invalid_discount_request") := by
      simp only [policy_guard_node]
      rw [if_neg (by decide), if_pos (by decide), if_pos (hb.mpr hdisc)]
    simp only [run_agent, hrt, hguard]
    exact ⟨rfl, rfl⟩
  · intro hnd
    have hbf : ¬((strIn "discount code" (lowerStr t) &&
        ["doesn\x27t exist", "non-existent", "fake"].any fun w => strIn w (lowerStr t)) = true) :=
      fun hx => hnd (hb.mp hx)
    have hguard : policy_guard_node "other" t = none := by
      simp only [policy_guard_node]
      rw [if_neg (by decide), if_pos (by decide), if_neg hbf]
    simp only [run_agent, hrt, hguard]
    exact ⟨rfl, rfl⟩

/-- Witness for C8: Scenario C triggers the refusal; "hello" does not. -/
theorem discount_guard_spec_witness :
    ((run_agent scenarioC).1.policy_decision = some (.refusal "invalid_discount_request") ∧
      (run_agent scenarioC).2 = refusalMsg) ∧
    ((run_agent "hello").1.policy_decision = none ∧ (run_agent "hello").2 = genericMsg) := by
  exact ⟨(discount_guard_spec scenarioC (by decide)).1 (by decide),
    (discount_guard_spec "hello" (by decide)).2 (by decide)⟩

/-- C9: for an `order_help` text from which the order-id pattern or an
email-shaped token cannot be extracted, no evidence is gathered, the policy
decision stays null, the (total) pipeline produces the fixed message
requesting both identifiers. -/
theorem order_help_missing_ids (t : String) (hintent : classify t = "order_help")
    (hmiss : extractOrderId t = none ∨ extractEmail t = none) :
    (run_agent t).1.evidence = [] ∧ (run_agent t).1.policy_decision = none ∧
    (run_agent t).2 = needIdsMsg := by
  have hrt : router_node [t] = "order_help" := hintent
  have hts : tool_selector_node "order_help" = ["order_lookup", "order_cancel"] := rfl
  have hev : execute_tools_node t ["order_lookup", "order_cancel"] = [] := by
    simp only [execute_tools_node]
    rw [if_neg (by decide), if_pos (by decide)]
    rcases hmiss with h | h
    · rw [h]
      rfl
    · cases ha : extractOrderId t
      · rfl
      · rw [h]
        rfl
  have hpd : policy_guard_node "order_help" t = none := by
    simp only [policy_guard_node]
    rw [if_pos (by decide)]
    rcases hmiss with h | h
    · rw [h]
    · cases ha : extractOrderId t
      · rfl
      · rw [h]
  simp only [run_agent, hrt, hts, hev, hpd]
  exact ⟨rfl, rfl, rfl⟩

/-- Witness for C9: "cancel my order please" carries neither an order id
token nor an email. -/
theorem order_help_missing_ids_witness :
    (run_agent "cancel my order please").1.evidence = [] ∧
    (run_agent "cancel my order please").1.policy_decision = none ∧
    (run_agent "cancel my order please").2 = needIdsMsg := by
  exact order_help_missing_ids "cancel my order please" (by decide) (.inl (by decide))

/-- Evaluating the five schema members on a rendered trace object. -/
theorem checkTraceSchema_traceJson_eq (tr : Trace) :
    checkTraceSchema (traceJson tr) =
      ((((["product_assist", "order_help", "other"].contains tr.intent &&
        (tr.tools_called.map Json.str).all isStrJson) &&
        tr.evidence.all isObjJson) &&
        policySchemaOk (policyDecisionJson tr.policy_decision)) && true) := rfl

/-- The `policy_decision` member of the schema accepts exactly the
non-refusal decisions: a refusal object lacks the required
`cancel_allowed` key. -/
theorem policySchemaOk_policyDecisionJson (pd : Option PolicyDecision) :
    policySchemaOk (policyDecisionJson pd) = !isRefusal pd := by
  match pd with
  | none => rfl
  | some (.refusal r) => rfl
  | some (.cancel a re m none) => rfl
  | some (.cancel a re m (some alts)) =>
      have h1 : policySchemaOk (policyDecisionJson (some (.cancel a re m (some alts)))) =
          ((true && true) && (alts.map Json.str).all isStrJson) := rfl
      rw [h1, all_isStr_map]
      rfl

/-- Counterexample for C3: on Scenario C the pipeline emits a trace whose
`policy_decision` is the refusal object `{refuse, reason}`; it lacks the
`cancel_allowed` member that the schema requires, so the trace does NOT
validate (`validate_trace` would raise on it). -/
theorem run_agent_trace_schema_violation :
    checkTraceSchema (traceJson (run_agent scenarioC).1) = false ∧
    validate_trace (traceJson (run_agent scenarioC).1) = Except.error "schema violation" := by
  constructor
  · rfl
  · rfl

/-- C3 (amended): the trace emitted by the pipeline validates against the
fixed trace schema exactly when its policy decision is not the discount
refusal (the refusal object lacks the required boolean `cancel_allowed`);
and `validate_trace` raises exactly on schema-violating traces. -/
theorem run_agent_trace_schema_characterization (t : String) :
    (checkTraceSchema (traceJson (run_agent t).1) =
      !isRefusal (run_agent t).1.policy_decision) ∧
    ∀ j : Json, validate_trace j = Except.error "schema violation" ↔ checkTraceSchema j = false := by
  constructor
  · rw [checkTraceSchema_traceJson_eq, policySchemaOk_policyDecisionJson]
    have hint : (run_agent t).1.intent = classify t := rfl
    have hev : (run_agent t).1.evidence =
        (execute_tools_node t (tool_selector_node (router_node [t]))).map evidenceJson := rfl
    rw [hint, hev, all_isObj_map, all_isStr_map]
    rcases classify_cases t with h | h | h <;> rw [h] <;> simp
  · intro j
    cases h : checkTraceSchema j <;> simp [validate_trace, h]

/-- Witness for C4: "cancel my wedding dress order" contains both a product
keyword and "cancel" and classifies as `order_help`. -/
theorem classify_spec_witness :
    classify "cancel my wedding dress order" = "order_help" := by
  exact (classify_spec "cancel my wedding dress order").2.2.2.1 (by decide) (by decide)

/-- Witness for C10: "560001" routes to the central-region estimate and the
empty input to the default. -/
theorem eta_spec_witness :
    eta "560001" = "2-3 business days" ∧ eta "" = "3-4 business days" := by
  constructor
  · rw [(eta_spec "560001").2.2 (by decide)]
    decide
  · exact (eta_spec "").2.1 (by decide)

/-- Witness for C5: product P4 is in the Scenario A search result and
satisfies the spec filter. -/
theorem product_search_spec_witness :
    MatchesSearch "midi" 120 ["wedding", "midi"]
      ⟨"P4", "A-Line Day Dress", 75, ["daywear", "midi"], ["S", "M", "L"], "Olive"⟩ := by
  exact (product_search_spec "midi" 120 ["wedding", "midi"]).1 _ (by decide)

/-- Witness for C3's amended theorem: a plain greeting produces a
schema-valid trace. -/
theorem run_agent_trace_schema_characterization_witness :
    checkTraceSchema (traceJson (run_agent "hello").1) = true := by
  rw [(run_agent_trace_schema_characterization "hello").1]
  rfl

end Commerce
